import Mathlib

/-!
Verification of the ChatKit starter app's session-brokering logic.

This file gives a shallow embedding, in Lean, of the session-lifecycle and
resilient-upstream-call component of the repository:

* the JSON error-extraction chains of
  src/app/api/create-session/route.ts (extractUpstreamError) and
  src/components/ChatKitPanel.tsx (extractErrorDetail);
* the retrying upstream HTTP client of route.ts (fetchWithRetry,
  shouldRetryStatus, isRetriableFetchError, getBackoffDelay) together with
  the jittered backoff variant of the route shipped inside src/app/App.tsx
  (getBackoffDelayWithJitter);
* the cookie-based identity resolver of route.ts and the App.tsx route
  variant (getCookieValue, serializeSessionCookie, resolveUserId with the
  CHATKIT_DISABLE_SESSION_COOKIE flag);
* the client-side session cache and single-flight issuance protocol of
  src/components/ChatKitPanel.tsx (getClientSecret, resolveSessionExpiry),
  modelled as an explicit state machine over the two mutable refs
  (sessionCacheRef, pendingSessionRef).

JavaScript numbers that only ever hold integral millisecond timestamps are
modelled as Int; the one genuinely fractional computation (the jitter
factor 0.7 + Math.random() * 0.6) is modelled over the rationals with the
random draw as an explicit parameter. External effects (fetch, Date.now,
crypto.randomUUID, Date.parse, Math.random) are passed in as explicit
oracle parameters.
-/

/-! ## A model of JSON values

JavaScript JSON payloads, as produced by JSON.parse. Object fields are a
key/value list; parsed JSON objects have unique keys and lookup takes the
first match. -/

inductive Json where
  | null
  | bool (b : Bool)
  | num (n : Int)
  | str (s : String)
  | arr (elems : List Json)
  | obj (fields : List (String × Json))

/-- Property access o[k] on a JSON value: only objects have string-keyed
fields. Arrays and primitives yield undefined (none). -/
def Json.getField : Json → String → Option Json
  | .obj fs, k => fs.lookup k
  | _, _ => none

/-! ## extractUpstreamError (src/app/api/create-session/route.ts, lines 354-399)

The argument is `Record<string, unknown> | undefined`; undefined is
modelled as none. Each guard of the source is mirrored:
`x && typeof x === "object" && "message" in x && typeof x.message === "string"`
holds exactly of an object value whose "message" field is a string. -/

/-- The check `v && typeof v === "object" && "message" in v && typeof v.message === "string"`,
returning the message. Arrays have typeof object but no "message" field;
null is falsy; primitives are not objects. -/
def jsObjMessage : Option Json → Option String
  | some (.obj fs) =>
    match fs.lookup "message" with
    | some (.str m) => some m
    | _ => none
  | _ => none

/-- The block `details && typeof details === "object" && "error" in details`
followed by the string / object-with-string-message checks on the nested
error; anything else falls through (none). -/
def jsDetailsError : Option Json → Option String
  | some (.obj fs) =>
    match fs.lookup "error" with
    | some (.str s) => some s
    | some nested => jsObjMessage (some nested)
    | none => none
  | _ => none

/-- Embedding of extractUpstreamError from
src/app/api/create-session/route.ts lines 354-399. -/
def extractUpstreamError (payload : Option Json) : Option String :=
  match payload with
  | none => none
  | some p =>
    match p.getField "error" with
    | some (.str s) => some s
    | errorField =>
      match jsObjMessage errorField with
      | some m => some m
      | none =>
        match p.getField "details" with
        | some (.str s) => some s
        | detailsField =>
          match jsDetailsError detailsField with
          | some m => some m
          | none =>
            match p.getField "message" with
            | some (.str s) => some s
            | _ => none

/-! ## extractErrorDetail (src/components/ChatKitPanel.tsx, lines 486-533)

Identical chain, but with a fallback string instead of null. -/

/-- Embedding of extractErrorDetail from src/components/ChatKitPanel.tsx
lines 486-533. -/
def extractErrorDetail (payload : Option Json) (fallback : String) : String :=
  match payload with
  | none => fallback
  | some p =>
    match p.getField "error" with
    | some (.str s) => s
    | errorField =>
      match jsObjMessage errorField with
      | some m => m
      | none =>
        match p.getField "details" with
        | some (.str s) => s
        | detailsField =>
          match jsDetailsError detailsField with
          | some m => m
          | none =>
            match p.getField "message" with
            | some (.str s) => s
            | _ => fallback

/-! ## The specification's extraction chain, for refinement comparison

Modelled from the spec's words: an ordered list of extraction rules applied
in sequence; the first rule to produce a string wins. The rules, in order:
top-level error string; error.message; details string; details.error
string or its .message; top-level message. -/

/-- Spec rule 1: top-level error string. -/
def ruleTopErrorString (p : Json) : Option String :=
  match p.getField "error" with
  | some (.str s) => some s
  | _ => none

/-- Spec rule 2: error.message, when error is an object carrying a string
message. -/
def ruleErrorMessage (p : Json) : Option String :=
  match p.getField "error" with
  | some (.str _) => none
  | e => jsObjMessage e

/-- Spec rule 3: details as a plain string. -/
def ruleDetailsString (p : Json) : Option String :=
  match p.getField "details" with
  | some (.str s) => some s
  | _ => none

/-- Spec rule 4: details.error, either a string or an object with a string
message. -/
def ruleDetailsError (p : Json) : Option String :=
  match p.getField "details" with
  | some (.str _) => none
  | d => jsDetailsError d

/-- Spec rule 5: top-level message string. -/
def ruleTopMessage (p : Json) : Option String :=
  match p.getField "message" with
  | some (.str s) => some s
  | _ => none

/-- Modelled from the spec: the fallback chain as an ordered rule list
(top-level error string, then error.message, then details string, then
details.error string or message, then top-level message). -/
def specUpstreamErrorChain (payload : Option Json) : Option String :=
  match payload with
  | none => none
  | some p =>
    (ruleTopErrorString p).or
      ((ruleErrorMessage p).or
        ((ruleDetailsString p).or
          ((ruleDetailsError p).or (ruleTopMessage p))))

/-! ## The upstream-rejection response (route.ts lines 97-115)

On a non-ok upstream response the endpoint answers with the upstream's own
status and the JSON body
  error: extractUpstreamError(json) or "Failed to create session: <statusText>",
  details: json. -/

/-- Embedding of the non-2xx branch of POST in
src/app/api/create-session/route.ts lines 97-115: the response status and
JSON body built from the upstream status, statusText and parsed body. -/
def upstreamFailureResponse (status : Nat) (statusText : String)
    (upstreamJson : Json) : Nat × Json :=
  (status,
    Json.obj
      [("error",
        Json.str ((extractUpstreamError (some upstreamJson)).getD
          ("Failed to create session: " ++ statusText))),
       ("details", upstreamJson)])

/-! ## Claims C5 and C10 -/

/-- C5: on an upstream rejection the endpoint extracts the error message by
applying, in order, the rules top-level error string, error.message, details
string, details.error (string or its message), top-level message, then a
generic fallback, and responds with the upstream's own status code; for
upstream JSON with error.message "bad workflow" and status 404 it responds
404 with error "bad workflow" and the upstream JSON as details. -/
theorem c5_upstream_error_extraction :
    (∀ payload : Option Json,
        extractUpstreamError payload = specUpstreamErrorChain payload) ∧
    upstreamFailureResponse 404 "Not Found"
        (Json.obj [("error", Json.obj [("message", Json.str "bad workflow")])]) =
      (404, Json.obj [("error", Json.str "bad workflow"),
        ("details",
          Json.obj [("error", Json.obj [("message", Json.str "bad workflow")])])]) := by
  refine ⟨fun payload => ?_, rfl⟩
  cases payload with
  | none => rfl
  | some p =>
    simp only [extractUpstreamError, specUpstreamErrorChain, ruleTopErrorString,
      ruleErrorMessage, ruleDetailsString, ruleDetailsError, ruleTopMessage]
    repeat' (split <;> try rfl)
    all_goals simp_all [Option.or]

/-- C10: the server-side extractUpstreamError and the client-side
extractErrorDetail implement the same error-extraction chain: on every
payload, extractErrorDetail returns exactly what extractUpstreamError
returns when that is a string, and its fallback argument when that is
null. -/
theorem c10_extraction_chains_agree (payload : Option Json) (fallback : String) :
    extractErrorDetail payload fallback =
      (extractUpstreamError payload).getD fallback := by
  cases payload with
  | none => rfl
  | some p =>
    simp only [extractUpstreamError, extractErrorDetail]
    repeat' (split <;> try rfl)

/-! ## Substring search

JavaScript String.prototype.includes, used by the retriable-error
classifier for the TIMEOUT check, modelled as naive search over the
character lists. -/

/-- Check that pat occurs at the very start of l. -/
def charListLeads : List Char → List Char → Bool
  | [], _ => true
  | _ :: _, [] => false
  | p :: ps, c :: cs => p == c && charListLeads ps cs

/-- Check that pat occurs somewhere in l. -/
def charListHas (pat l : List Char) : Bool :=
  match l with
  | [] => charListLeads pat []
  | _ :: cs => charListLeads pat l || charListHas pat cs

/-- JavaScript s.includes(pat). -/
def strIncludes (s pat : String) : Bool :=
  charListHas pat.data s.data

/-! ## JavaScript exception values

A thrown value as inspected by isRetriableFetchError: it is either falsy
(null, undefined, 0, the empty string), a truthy primitive (which has no
own properties, so its code and cause read as undefined), or an object
carrying the instanceof Error / instanceof TypeError facts, an optional
message, an optional string code and an optional cause. A code property of
non-string type is modelled as none, since every guard in the source first
checks typeof code === "string". -/

inductive ErrVal where
  | falsy
  | truthyPrim
  | obj (isErrorInstance : Bool) (isTypeErrorInstance : Bool)
        (message : Option String) (code : Option String) (cause : Option ErrVal)

/-- The instanceof Error test on a thrown value. -/
def ErrVal.isErrorInstance : ErrVal → Bool
  | .obj isErr _ _ _ _ => isErr
  | _ => false

/-- Embedding of isRetriableFetchError from
src/app/api/create-session/route.ts lines 287-315: falsy values are not
retriable; a TypeError is retriable; an Error whose own code is a string
containing TIMEOUT is retriable; otherwise, if the cause property is a
truthy object whose code is a string containing TIMEOUT, it is retriable;
anything else is not. Only the immediate cause is inspected. -/
def isRetriableFetchError : ErrVal → Bool
  | .falsy => false
  | .truthyPrim => false
  | .obj isErr isTypeErr _ code cause =>
    isTypeErr ||
    (isErr && (match code with
      | some c => strIncludes c "TIMEOUT"
      | none => false)) ||
    (match cause with
      | some (.obj _ _ _ (some c) _) => strIncludes c "TIMEOUT"
      | _ => false)

/-- Modelled from the claim's words (C4): the error's own code or a code
found anywhere in its nested cause chain contains TIMEOUT. -/
def causeChainHasTimeoutCode : ErrVal → Bool
  | .obj _ _ _ code cause =>
    (match code with
      | some c => strIncludes c "TIMEOUT"
      | none => false) ||
    (match cause with
      | some e => causeChainHasTimeoutCode e
      | none => false)
  | _ => false

/-- Modelled from the claim's words (C4): retriable iff a TypeError, or a
TIMEOUT code anywhere in the nested cause chain. -/
def claimedRetriableNestedChain (e : ErrVal) : Bool :=
  (match e with
    | .obj _ isTypeErr _ _ _ => isTypeErr
    | _ => false) ||
  causeChainHasTimeoutCode e

/-- Amended classification (C4): a TypeError; or an Error instance whose
own code contains TIMEOUT; or a value whose immediate cause (one level
only) is an object whose code contains TIMEOUT. -/
def amendedRetriable (e : ErrVal) : Bool :=
  (match e with
    | .obj _ isTypeErr _ _ _ => isTypeErr
    | _ => false) ||
  (match e with
    | .obj true _ _ (some c) _ => strIncludes c "TIMEOUT"
    | _ => false) ||
  (match e with
    | .obj _ _ _ _ (some (.obj _ _ _ (some c) _)) => strIncludes c "TIMEOUT"
    | _ => false)

/-! ## The retrying upstream client (route.ts lines 245-323)

fetch is modelled as an oracle assigning to each attempt number (1-based)
either a response or a thrown error. A response carries its HTTP status
and an identity tag rid so that draining can be observed. The run returns
the JavaScript outcome (ok response or thrown error) together with an
event log recording each fetch, each body drain and each backoff wait.

The while loop `while (attempt < attempts)` is rendered as structural
recursion on remaining = attempts - attempt, which fetchWithRetry
initialises to attempts - 0; attempt itself is carried along unchanged so
that every guard of the source (`attempt < attempts`, `attempt >= attempts`)
appears literally. -/

structure Resp where
  status : Nat
  rid : Nat
deriving Repr, DecidableEq

/-- JavaScript Response.ok: status in the inclusive range 200-299. -/
def Resp.ok (r : Resp) : Bool := 200 ≤ r.status && r.status ≤ 299

inductive FetchOutcome where
  | success (r : Resp)
  | failure (e : ErrVal)

inductive RetryEvent where
  | fetched (attempt : Nat)
  | drained (rid : Nat)
  | waited (ms : Nat)
deriving Repr, DecidableEq

/-- RETRY_ATTEMPTS from src/app/api/create-session/route.ts line 19. -/
def RETRY_ATTEMPTS : Nat := 3

/-- RETRY_BASE_DELAY_MS from src/app/api/create-session/route.ts line 20. -/
def RETRY_BASE_DELAY_MS : Nat := 500

/-- Embedding of shouldRetryStatus from route.ts lines 283-285. -/
def shouldRetryStatus (status : Nat) : Bool :=
  status == 408 || status == 425 || status == 429 || status ≥ 500

/-- Embedding of getBackoffDelay from route.ts lines 317-319; called only
with attempt at least 1. -/
def getBackoffDelay (attempt : Nat) : Nat :=
  RETRY_BASE_DELAY_MS * 2 ^ (attempt - 1)

/-- The `new Error("Failed to reach OpenAI ChatKit.")` value from route.ts
line 280 (reachable only when the loop body never runs). -/
def failedToReachError : ErrVal :=
  .obj true false (some "Failed to reach OpenAI ChatKit.") none none

/-- The loop of fetchWithRetry (route.ts lines 245-281). remaining is the
number of loop iterations still permitted (attempts - attempt). -/
def fetchLoop (oracle : Nat → FetchOutcome) (attempts : Nat) :
    Nat → Nat → Option ErrVal → List RetryEvent →
    Except ErrVal Resp × List RetryEvent
  | 0, _, lastError, log =>
    (.error (match lastError with
      | some e => if e.isErrorInstance then e else failedToReachError
      | none => failedToReachError), log)
  | remaining + 1, attempt, lastError, log =>
    let a := attempt + 1
    let log2 := log ++ [RetryEvent.fetched a]
    match oracle a with
    | .success r =>
      if !r.ok && shouldRetryStatus r.status && a < attempts then
        fetchLoop oracle attempts remaining a lastError
          (log2 ++ [RetryEvent.drained r.rid, RetryEvent.waited (getBackoffDelay a)])
      else
        (.ok r, log2)
    | .failure e =>
      if !isRetriableFetchError e || a ≥ attempts then
        (.error e, log2)
      else
        fetchLoop oracle attempts remaining a (some e)
          (log2 ++ [RetryEvent.waited (getBackoffDelay a)])

/-- Embedding of fetchWithRetry from route.ts lines 245-281. -/
def fetchWithRetry (oracle : Nat → FetchOutcome)
    (attempts : Nat := RETRY_ATTEMPTS) : Except ErrVal Resp × List RetryEvent :=
  fetchLoop oracle attempts attempts 0 none []

/-- Number of fetch calls recorded in a log. -/
def numFetched (log : List RetryEvent) : Nat :=
  log.countP fun e => match e with
    | .fetched _ => true
    | _ => false

/-- Embedding of getBackoffDelayWithJitter from the create-session route
variant shipped in src/app/App.tsx: max(100, floor(base * jitter)) with
jitter = 0.7 + Math.random() * 0.6; the random draw (in the half-open unit
interval) is an explicit parameter, modelled as an exact rational. -/
def getBackoffDelayWithJitter (attempt : Nat) (rand : ℚ) : Int :=
  let base : ℚ := (getBackoffDelay attempt : ℚ)
  let jitter : ℚ := 7/10 + rand * (6/10)
  max 100 ⌊base * jitter⌋

/-! ## Supporting lemmas about the retry loop -/

/-- Counting appended logs. -/
theorem numFetched_append (l1 l2 : List RetryEvent) :
    numFetched (l1 ++ l2) = numFetched l1 + numFetched l2 :=
  List.countP_append _ _ _

/-- The loop only ever appends to its event log. -/
theorem fetchLoop_log_extends (oracle : Nat → FetchOutcome) (attempts : Nat) :
    ∀ remaining attempt lastError log,
      ∃ suffix,
        (fetchLoop oracle attempts remaining attempt lastError log).2 = log ++ suffix := by
  intro remaining
  induction remaining with
  | zero =>
    intro attempt le log
    exact ⟨[], by simp [fetchLoop]⟩
  | succ n ih =>
    intro attempt le log
    simp only [fetchLoop]
    cases h : oracle (attempt + 1) with
    | success r =>
      dsimp only
      split
      · obtain ⟨suf, hs⟩ := ih (attempt + 1) le
          (log ++ [RetryEvent.fetched (attempt + 1)] ++
            [RetryEvent.drained r.rid, RetryEvent.waited (getBackoffDelay (attempt + 1))])
        exact ⟨RetryEvent.fetched (attempt + 1) :: RetryEvent.drained r.rid ::
          RetryEvent.waited (getBackoffDelay (attempt + 1)) :: suf, by rw [hs]; simp⟩
      · exact ⟨[RetryEvent.fetched (attempt + 1)], rfl⟩
    | failure e =>
      dsimp only
      split
      · exact ⟨[RetryEvent.fetched (attempt + 1)], rfl⟩
      · obtain ⟨suf, hs⟩ := ih (attempt + 1) (some e)
          (log ++ [RetryEvent.fetched (attempt + 1)] ++
            [RetryEvent.waited (getBackoffDelay (attempt + 1))])
        exact ⟨RetryEvent.fetched (attempt + 1) ::
          RetryEvent.waited (getBackoffDelay (attempt + 1)) :: suf, by rw [hs]; simp⟩

/-- The loop performs at most remaining further fetches. -/
theorem fetchLoop_count_le (oracle : Nat → FetchOutcome) (attempts : Nat) :
    ∀ remaining attempt lastError log,
      numFetched (fetchLoop oracle attempts remaining attempt lastError log).2 ≤
        numFetched log + remaining := by
  intro remaining
  induction remaining with
  | zero =>
    intro attempt le log
    simp [fetchLoop]
  | succ n ih =>
    intro attempt le log
    simp only [fetchLoop]
    cases h : oracle (attempt + 1) with
    | success r =>
      dsimp only
      split
      · calc numFetched (fetchLoop oracle attempts n (attempt + 1) le
              (log ++ [RetryEvent.fetched (attempt + 1)] ++
                [RetryEvent.drained r.rid,
                 RetryEvent.waited (getBackoffDelay (attempt + 1))])).2 ≤
            numFetched (log ++ [RetryEvent.fetched (attempt + 1)] ++
                [RetryEvent.drained r.rid,
                 RetryEvent.waited (getBackoffDelay (attempt + 1))]) + n := ih _ _ _
          _ ≤ numFetched log + (n + 1) := by
              simp [numFetched_append, numFetched]
              omega
      · simp [numFetched_append, numFetched]
    | failure e =>
      dsimp only
      split
      · simp [numFetched_append, numFetched]
      · calc numFetched (fetchLoop oracle attempts n (attempt + 1) (some e)
              (log ++ [RetryEvent.fetched (attempt + 1)] ++
                [RetryEvent.waited (getBackoffDelay (attempt + 1))])).2 ≤
            numFetched (log ++ [RetryEvent.fetched (attempt + 1)] ++
                [RetryEvent.waited (getBackoffDelay (attempt + 1))]) + n := ih _ _ _
          _ ≤ numFetched log + (n + 1) := by
              simp [numFetched_append, numFetched]
              omega

/-- On the final permitted attempt, a response is returned as-is, retriable
status or not. -/
theorem fetchLoop_final_response (oracle : Nat → FetchOutcome) (attempts attempt : Nat)
    (le : Option ErrVal) (log : List RetryEvent) (r : Resp)
    (h : oracle (attempt + 1) = .success r) (ha : attempts ≤ attempt + 1) :
    fetchLoop oracle attempts 1 attempt le log =
      (.ok r, log ++ [RetryEvent.fetched (attempt + 1)]) := by
  simp only [fetchLoop, h]
  have : ¬ (attempt + 1 < attempts) := by omega
  simp [this]

/-- A thrown error that is not retriable, or thrown on the final attempt,
is surfaced to the caller unchanged. -/
theorem fetchLoop_error_surfaced (oracle : Nat → FetchOutcome)
    (attempts remaining attempt : Nat) (le : Option ErrVal) (log : List RetryEvent)
    (e : ErrVal) (h : oracle (attempt + 1) = .failure e)
    (hc : isRetriableFetchError e = false ∨ attempts ≤ attempt + 1) :
    fetchLoop oracle attempts (remaining + 1) attempt le log =
      (.error e, log ++ [RetryEvent.fetched (attempt + 1)]) := by
  simp only [fetchLoop, h]
  have : (!isRetriableFetchError e || decide (attempt + 1 ≥ attempts)) = true := by
    rcases hc with hc | hc <;> simp [hc]
  simp [this]

/-- Every response the loop fetched and then retried past (that is, whose
successor attempt was also fetched) had its body drained first. -/
theorem fetchLoop_drained_before_retry (oracle : Nat → FetchOutcome) (attempts : Nat) :
    ∀ remaining attempt lastError log j r,
      oracle j = .success r →
      attempt < j →
      (∀ k, RetryEvent.fetched k ∈ log → k ≤ attempt) →
      RetryEvent.fetched (j + 1) ∈ (fetchLoop oracle attempts remaining attempt lastError log).2 →
      RetryEvent.drained r.rid ∈ (fetchLoop oracle attempts remaining attempt lastError log).2 := by
  intro remaining
  induction remaining with
  | zero =>
    intro attempt le log j r hj hlt hlog hmem
    simp only [fetchLoop] at hmem
    have := hlog _ hmem
    omega
  | succ n ih =>
    intro attempt le log j r hj hlt hlog hmem
    simp only [fetchLoop] at hmem ⊢
    cases h : oracle (attempt + 1) with
    | success r0 =>
      simp only [h] at hmem ⊢
      by_cases hretry : (!r0.ok && shouldRetryStatus r0.status && decide (attempt + 1 < attempts)) = true
      · rw [if_pos hretry] at hmem ⊢
        rcases Nat.lt_or_ge j (attempt + 1) with hj1 | hj1
        · omega
        · rcases Nat.eq_or_lt_of_le hj1 with hj2 | hj2
          · have hr : r = r0 := by
              rw [hj2] at h
              rw [h] at hj
              exact (FetchOutcome.success.inj hj).symm
            obtain ⟨suf, hs⟩ := fetchLoop_log_extends oracle attempts n (attempt + 1) le
              (log ++ [RetryEvent.fetched (attempt + 1)] ++
                [RetryEvent.drained r0.rid, RetryEvent.waited (getBackoffDelay (attempt + 1))])
            rw [hs]
            subst hr
            simp
          · exact ih (attempt + 1) le _ j r hj hj2
              (by
                intro k hk
                simp at hk
                rcases hk with hk | hk
                · exact Nat.le_trans (hlog _ hk) (Nat.le_succ _)
                · omega) hmem
      · rw [if_neg hretry] at hmem ⊢
        dsimp only at hmem
        simp at hmem
        rcases hmem with hmem | hmem
        · have := hlog _ hmem
          omega
        · omega
    | failure e =>
      simp only [h] at hmem ⊢
      by_cases hthrow : (!isRetriableFetchError e || decide (attempt + 1 ≥ attempts)) = true
      · rw [if_pos hthrow] at hmem ⊢
        dsimp only at hmem
        simp at hmem
        rcases hmem with hmem | hmem
        · have := hlog _ hmem
          omega
        · omega
      · rw [if_neg hthrow] at hmem ⊢
        rcases Nat.lt_or_ge j (attempt + 1) with hj1 | hj1
        · omega
        · rcases Nat.eq_or_lt_of_le hj1 with hj2 | hj2
          · rw [hj2] at h
            rw [h] at hj
            simp at hj
          · exact ih (attempt + 1) (some e) _ j r hj hj2
              (by
                intro k hk
                simp at hk
                rcases hk with hk | hk
                · exact Nat.le_trans (hlog _ hk) (Nat.le_succ _)
                · omega) hmem

/-! ## Claims C2, C3 and C4 -/

/-- An upstream that answers 429 to every attempt; the response identity
tag records the attempt number. -/
def always429 : Nat → FetchOutcome := fun a => .success ⟨429, a⟩

/-- C2: a response with status 408, 425, 429 or at least 500 is retried
only while attempts remain and its body is drained before each retry; on
the final attempt such a response is returned as-is; an always-429
upstream yields exactly attempts-1 retries with the last 429 response
returned; and no more than the configured 3 fetch calls are ever made. -/
theorem c2_fetchWithRetry_status_retry :
    (∀ oracle : Nat → FetchOutcome,
        numFetched (fetchWithRetry oracle RETRY_ATTEMPTS).2 ≤ RETRY_ATTEMPTS) ∧
    (∀ (oracle : Nat → FetchOutcome) (attempts attempt : Nat) (le : Option ErrVal)
        (log : List RetryEvent) (r : Resp),
        oracle (attempt + 1) = .success r → attempts ≤ attempt + 1 →
        fetchLoop oracle attempts 1 attempt le log =
          (.ok r, log ++ [RetryEvent.fetched (attempt + 1)])) ∧
    (∀ (oracle : Nat → FetchOutcome) (j : Nat) (r : Resp),
        oracle j = .success r → 0 < j →
        RetryEvent.fetched (j + 1) ∈ (fetchWithRetry oracle RETRY_ATTEMPTS).2 →
        RetryEvent.drained r.rid ∈ (fetchWithRetry oracle RETRY_ATTEMPTS).2) ∧
    fetchWithRetry always429 RETRY_ATTEMPTS =
      (.ok ⟨429, 3⟩,
       [RetryEvent.fetched 1, RetryEvent.drained 1, RetryEvent.waited 500,
        RetryEvent.fetched 2, RetryEvent.drained 2, RetryEvent.waited 1000,
        RetryEvent.fetched 3]) := by
  refine ⟨fun oracle => ?_, fun oracle attempts attempt le log r h ha => ?_,
    fun oracle j r hj hpos hmem => ?_, rfl⟩
  · simpa [fetchWithRetry] using fetchLoop_count_le oracle RETRY_ATTEMPTS RETRY_ATTEMPTS 0 none []
  · exact fetchLoop_final_response oracle attempts attempt le log r h ha
  · exact fetchLoop_drained_before_retry oracle RETRY_ATTEMPTS RETRY_ATTEMPTS 0 none [] j r hj
      hpos (by intro k hk; cases hk) hmem

/-- Witness for C2, at the always-429 upstream. -/
theorem c2_fetchWithRetry_status_retry_witness :
    numFetched (fetchWithRetry always429 RETRY_ATTEMPTS).2 ≤ RETRY_ATTEMPTS ∧
    fetchLoop always429 1 1 0 none [] = (.ok ⟨429, 1⟩, [RetryEvent.fetched 1]) ∧
    RetryEvent.drained 1 ∈ (fetchWithRetry always429 RETRY_ATTEMPTS).2 :=
  ⟨c2_fetchWithRetry_status_retry.1 always429,
   c2_fetchWithRetry_status_retry.2.1 always429 1 0 none [] ⟨429, 1⟩ rfl (by omega),
   c2_fetchWithRetry_status_retry.2.2.1 always429 1 ⟨429, 1⟩ rfl (by omega) (by decide)⟩

/-- C3: the backoff delay for attempt n is base * 2 ^ (n - 1) with base
500 ms (so 500, 1000, 2000 for attempts 1, 2, 3); the jittered delay of
the route variant always falls within [0.7, 1.3] times that and is floored
at 100 ms. -/
theorem c3_backoff_delay (n : Nat) (h : 1 ≤ n) :
    getBackoffDelay n = 500 * 2 ^ (n - 1) ∧
    (getBackoffDelay 1 = 500 ∧ getBackoffDelay 2 = 1000 ∧ getBackoffDelay 3 = 2000) ∧
    ∀ rand : ℚ, 0 ≤ rand → rand < 1 →
      ((7 : ℚ) / 10) * (500 * 2 ^ (n - 1)) ≤ (getBackoffDelayWithJitter n rand : ℚ) ∧
      (getBackoffDelayWithJitter n rand : ℚ) ≤ ((13 : ℚ) / 10) * (500 * 2 ^ (n - 1)) ∧
      (100 : Int) ≤ getBackoffDelayWithJitter n rand := by
  refine ⟨rfl, ⟨rfl, rfl, rfl⟩, ?_⟩
  intro rand hr0 hr1
  have hp : (0 : ℚ) < 2 ^ (n - 1) := by positivity
  have hp1 : (1 : ℚ) ≤ 2 ^ (n - 1) := by
    exact_mod_cast Nat.one_le_two_pow (n := n - 1)
  have hbase : ((getBackoffDelay n : ℚ)) = 500 * 2 ^ (n - 1) := by
    simp [getBackoffDelay, RETRY_BASE_DELAY_MS]
  set x : ℚ := (getBackoffDelay n : ℚ) * (7/10 + rand * (6/10)) with hx
  have hxlo : (350 : ℚ) * 2 ^ (n - 1) ≤ x := by
    rw [hx, hbase]
    nlinarith [mul_nonneg hp.le hr0]
  have hxhi : x ≤ (650 : ℚ) * 2 ^ (n - 1) := by
    rw [hx, hbase]
    nlinarith [mul_nonneg hp.le (sub_nonneg.mpr hr1.le)]
  have hfl_lo : ((350 : Int) * 2 ^ (n - 1) : Int) ≤ ⌊x⌋ := by
    apply Int.le_floor.mpr
    push_cast
    exact hxlo
  have hfl_hi : (⌊x⌋ : ℚ) ≤ 650 * 2 ^ (n - 1) :=
    le_trans (Int.floor_le x) hxhi
  have h100 : (100 : ℚ) ≤ 650 * 2 ^ (n - 1) := by nlinarith
  refine ⟨?_, ?_, ?_⟩
  · have hstep : ((350 : Int) * 2 ^ (n - 1) : ℚ) ≤ ((max 100 ⌊x⌋ : Int) : ℚ) := by
      have h1 : ((350 : Int) * 2 ^ (n - 1) : ℚ) ≤ (⌊x⌋ : ℚ) := by exact_mod_cast hfl_lo
      have h2 : ((⌊x⌋ : Int) : ℚ) ≤ ((max 100 ⌊x⌋ : Int) : ℚ) := by
        exact_mod_cast le_max_right (100 : Int) ⌊x⌋
      linarith
    calc ((7 : ℚ) / 10) * (500 * 2 ^ (n - 1)) = 350 * 2 ^ (n - 1) := by ring
      _ ≤ ((max 100 ⌊x⌋ : Int) : ℚ) := by push_cast at hstep ⊢; linarith
      _ = (getBackoffDelayWithJitter n rand : ℚ) := by
          simp [getBackoffDelayWithJitter, hx]
  · have hmax : ((max 100 ⌊x⌋ : Int) : ℚ) ≤ 650 * 2 ^ (n - 1) := by
      rcases max_cases (100 : Int) ⌊x⌋ with ⟨hm, _⟩ | ⟨hm, _⟩
      · rw [hm]; push_cast; linarith
      · rw [hm]; exact hfl_hi
    calc (getBackoffDelayWithJitter n rand : ℚ)
        = ((max 100 ⌊x⌋ : Int) : ℚ) := by simp [getBackoffDelayWithJitter, hx]
      _ ≤ 650 * 2 ^ (n - 1) := hmax
      _ = ((13 : ℚ) / 10) * (500 * 2 ^ (n - 1)) := by ring
  · simp only [getBackoffDelayWithJitter]
    exact le_max_left _ _

/-- Witness for C3 at attempt 3 with random draw one half. -/
theorem c3_backoff_delay_witness :
    getBackoffDelay 3 = 500 * 2 ^ (3 - 1) ∧
    ((7 : ℚ) / 10) * (500 * 2 ^ (3 - 1)) ≤ (getBackoffDelayWithJitter 3 (1/2) : ℚ) :=
  ⟨(c3_backoff_delay 3 (by omega)).1,
   ((c3_backoff_delay 3 (by omega)).2.2 (1/2) (by norm_num) (by norm_num)).1⟩

/-- A thrown fetch failure whose TIMEOUT code sits two cause levels deep:
an Error with no code whose cause is an object with no code whose own
cause carries code UND_ERR_CONNECT_TIMEOUT. -/
def deepTimeoutErr : ErrVal :=
  .obj true false (some "fetch failed") none
    (some (.obj false false none none
      (some (.obj false false none (some "UND_ERR_CONNECT_TIMEOUT") none))))

/-- C4 counterexample: the code inspects only the immediate cause, so a
TIMEOUT code two cause levels deep is classified not retriable although
the claim's anywhere-in-the-nested-cause-chain reading classifies it
retriable. -/
theorem c4_nested_cause_counterexample :
    isRetriableFetchError deepTimeoutErr = false ∧
    claimedRetriableNestedChain deepTimeoutErr = true := by
  exact ⟨by decide, by decide⟩

/-- C4 amended: an error is classified retriable exactly when it is a
TypeError, or an Error instance whose own code contains TIMEOUT, or a
value whose immediate cause (one level only, not the whole nested chain)
is an object whose code contains TIMEOUT; a non-retriable error, or any
error thrown on the final attempt, is surfaced to the caller unchanged. -/
theorem c4_retriable_classification_amended :
    (∀ e : ErrVal, isRetriableFetchError e = amendedRetriable e) ∧
    (∀ (oracle : Nat → FetchOutcome) (attempts remaining attempt : Nat)
        (le : Option ErrVal) (log : List RetryEvent) (e : ErrVal),
        oracle (attempt + 1) = .failure e →
        (isRetriableFetchError e = false ∨ attempts ≤ attempt + 1) →
        fetchLoop oracle attempts (remaining + 1) attempt le log =
          (.error e, log ++ [RetryEvent.fetched (attempt + 1)])) := by
  constructor
  · intro e
    cases e with
    | falsy => rfl
    | truthyPrim => rfl
    | obj isErr isTypeErr msg code cause =>
      cases isTypeErr with
      | true => rfl
      | false =>
        cases isErr <;> rcases code with _ | c <;> rcases cause with _ | ce <;>
          first
            | rfl
            | (cases ce with
               | falsy => rfl
               | truthyPrim => rfl
               | obj a b m d cc => rcases d with _ | dc <;> rfl)
  · intro oracle attempts remaining attempt le log e h hc
    exact fetchLoop_error_surfaced oracle attempts remaining attempt le log e h hc

/-- Witness for C4's amended theorem: a non-retriable plain Error thrown
on the first attempt is surfaced unchanged. -/
theorem c4_retriable_classification_amended_witness :
    isRetriableFetchError deepTimeoutErr = amendedRetriable deepTimeoutErr ∧
    fetchLoop (fun _ => .failure deepTimeoutErr) RETRY_ATTEMPTS 3 0 none [] =
      (.error deepTimeoutErr, [RetryEvent.fetched 1]) :=
  ⟨c4_retriable_classification_amended.1 deepTimeoutErr,
   c4_retriable_classification_amended.2 (fun _ => .failure deepTimeoutErr)
     RETRY_ATTEMPTS 2 0 none [] deepTimeoutErr rfl (Or.inl (by decide))⟩

/-! ## The client-side session cache (src/components/ChatKitPanel.tsx)

getClientSecret closes over two mutable refs: sessionCacheRef (the cached
secret and its absolute expiry) and pendingSessionRef (the in-flight
issuance promise, if any). The protocol is modelled as a state machine.
The promise held by pendingSessionRef is identified by a numeric id drawn
from a counter; ghost fields netCalls (upstream issuance calls made) and
inFlight (issuances currently running) instrument the runs. Completion of
the in-flight issuance - the body of requestPromise finishing, followed by
the finally handler of trackedPromise clearing the pending marker - is a
separate event, since awaiting callers observe the shared promise. -/

/-- SESSION_CACHE_BUFFER_MS from src/components/ChatKitPanel.tsx line 41. -/
def SESSION_CACHE_BUFFER_MS : Int := 60000

/-- DEFAULT_SESSION_TTL_MS from src/components/ChatKitPanel.tsx line 42. -/
def DEFAULT_SESSION_TTL_MS : Int := 15 * 60 * 1000

/-- The expires_after value of the create-session response, as seen by
resolveSessionExpiry: a number, a string together with its Date.parse
result (none when NaN), or any other value. -/
inductive RawExpiry where
  | num (n : Int)
  | str (dateParse : Option Int)
  | other

/-- Embedding of resolveSessionExpiry from src/components/ChatKitPanel.tsx
lines 443-460: numbers above 10^12 are taken as already-absolute epoch
milliseconds, other numbers as seconds from now; parseable date strings
are converted; anything else yields now plus the default TTL. -/
def resolveSessionExpiry (now : Int) (raw : RawExpiry) : Int :=
  match raw with
  | .num n => if n > 1000000000000 then n else now + n * 1000
  | .str dp =>
    match dp with
    | some parsed => parsed
    | none => now + DEFAULT_SESSION_TTL_MS
  | .other => now + DEFAULT_SESSION_TTL_MS

/-- The sessionCacheRef contents: SessionCache from ChatKitPanel.tsx
lines 36-39. -/
structure SessionCache where
  secret : String
  expiresAt : Int
deriving Repr, DecidableEq

/-- The mutable state of one ChatKitPanel instance, plus ghost
instrumentation: netCalls counts upstream issuance calls, inFlight counts
issuances currently running, nextId feeds promise identities. -/
structure PanelState where
  sessionCache : Option SessionCache
  pendingId : Option Nat
  nextId : Nat
  netCalls : Nat
  inFlight : Nat
deriving Repr, DecidableEq

/-- What a getClientSecret call hands back to its caller: a secret
resolved synchronously, or the shared pending promise (by id). -/
inductive CallResult where
  | secretNow (s : String)
  | awaitPending (id : Nat)
deriving Repr, DecidableEq

/-- The initial refs: both null. -/
def initialPanelState : PanelState := ⟨none, none, 0, 0, 0⟩

/-- The pending-check and issuance-start tail of getClientSecret
(ChatKitPanel.tsx lines 230-331): join the in-flight promise if one
exists, otherwise start a new issuance and store it as pending. -/
def joinOrStartIssuance (st : PanelState) : CallResult × PanelState :=
  match st.pendingId with
  | some p => (.awaitPending p, st)
  | none =>
    (.awaitPending st.nextId,
     { st with pendingId := some st.nextId, nextId := st.nextId + 1,
               netCalls := st.netCalls + 1, inFlight := st.inFlight + 1 })

/-- Embedding of one getClientSecret invocation (ChatKitPanel.tsx lines
183-334), run in the configured-workflow case: adopt a caller-provided
secret into the cache; else serve a cached secret with more than
SESSION_CACHE_BUFFER_MS until expiry; else join the pending issuance;
else start a new one. -/
def getClientSecretStep (st : PanelState) (currentSecret : Option String)
    (now : Int) : CallResult × PanelState :=
  match currentSecret with
  | some cs =>
    let expiresAt :=
      match st.sessionCache with
      | some c => if c.secret = cs then c.expiresAt else now + DEFAULT_SESSION_TTL_MS
      | none => now + DEFAULT_SESSION_TTL_MS
    (.secretNow cs, { st with sessionCache := some ⟨cs, expiresAt⟩ })
  | none =>
    match st.sessionCache with
    | some cached =>
      if cached.expiresAt - now > SESSION_CACHE_BUFFER_MS then
        (.secretNow cached.secret, st)
      else
        joinOrStartIssuance st
    | none => joinOrStartIssuance st

/-- How the in-flight issuance settles: with a client secret and the raw
expires_after of the response body, or with an error message. -/
inductive IssuanceOutcome where
  | ok (secret : String) (expiresAfter : RawExpiry)
  | err (msg : String)

/-- Settlement of the in-flight issuance (ChatKitPanel.tsx lines 242-331):
on success the cache is set to the secret with its resolved absolute
expiry; on failure the cache is untouched; in both cases the finally
handler clears the pending marker. With no issuance in flight there is
nothing to settle. -/
def completeIssuance (st : PanelState) (outcome : IssuanceOutcome)
    (now : Int) : PanelState :=
  match st.pendingId with
  | none => st
  | some _ =>
    match outcome with
    | .ok secret raw =>
      { st with sessionCache := some ⟨secret, resolveSessionExpiry now raw⟩,
                pendingId := none, inFlight := st.inFlight - 1 }
    | .err _ =>
      { st with pendingId := none, inFlight := st.inFlight - 1 }

/-- An event of one panel instance: a getClientSecret call, or the
settlement of the in-flight issuance. -/
inductive PanelEvent where
  | call (currentSecret : Option String) (now : Int)
  | complete (outcome : IssuanceOutcome) (now : Int)

/-- State transition of one event. -/
def panelStep (st : PanelState) : PanelEvent → PanelState
  | .call cs now => (getClientSecretStep st cs now).2
  | .complete o now => completeIssuance st o now

/-- Run a trace of events from the initial state. -/
def runPanel (events : List PanelEvent) : PanelState :=
  events.foldl panelStep initialPanelState

/-- The single-flight invariant: the ghost in-flight count is determined
by the pending marker, and in particular never exceeds one. -/
def singleFlightInv (st : PanelState) : Prop :=
  st.inFlight = (if st.pendingId.isSome then 1 else 0)

/-- The outcome a caller of getClientSecret eventually observes, given the
settlement of each issuance promise: a synchronously resolved secret, or
the shared outcome of the awaited promise. -/
def deliverResult (outcomeOf : Nat → IssuanceOutcome) :
    CallResult → Except String String
  | .secretNow s => .ok s
  | .awaitPending p =>
    match outcomeOf p with
    | .ok s _ => .ok s
    | .err m => .error m

/-- Every panel event preserves the single-flight invariant. -/
theorem panelStep_preserves_inv (st : PanelState) (ev : PanelEvent)
    (h : singleFlightInv st) : singleFlightInv (panelStep st ev) := by
  cases ev with
  | call cs now =>
    simp only [panelStep, getClientSecretStep]
    cases cs with
    | some c => simpa [singleFlightInv] using h
    | none =>
      cases hc : st.sessionCache with
      | some cached =>
        by_cases hfresh : cached.expiresAt - now > SESSION_CACHE_BUFFER_MS
        · simpa [hfresh, singleFlightInv] using h
        · simp only [if_neg hfresh, joinOrStartIssuance]
          cases hp : st.pendingId with
          | some p => simpa [singleFlightInv] using h
          | none =>
            simp [singleFlightInv, hp] at h ⊢
            omega
      | none =>
        simp only [joinOrStartIssuance]
        cases hp : st.pendingId with
        | some p => simpa [singleFlightInv] using h
        | none =>
          simp [singleFlightInv, hp] at h ⊢
          omega
  | complete o now =>
    simp only [panelStep, completeIssuance]
    cases hp : st.pendingId with
    | none => simpa using h
    | some p =>
      cases o <;> simp [singleFlightInv, hp] at h ⊢ <;> omega

/-- The single-flight invariant holds along every trace. -/
theorem runPanel_inv (events : List PanelEvent) : singleFlightInv (runPanel events) := by
  suffices hgen : ∀ (evs : List PanelEvent) (st : PanelState),
      singleFlightInv st → singleFlightInv (evs.foldl panelStep st) by
    exact hgen events initialPanelState (by simp [singleFlightInv, initialPanelState])
  intro evs
  induction evs with
  | nil => intro st h; exact h
  | cons e rest ih =>
    intro st h
    exact ih (panelStep st e) (panelStep_preserves_inv st e h)

/-! ## Claims C1, C7 and C8 -/

/-- C1: a call to getClientSecret with no caller-provided secret returns
the cached secret without any state change (hence no network call) when
the cache has more than 60 seconds until expiry; when the cache is absent
or stale and an issuance is pending, every caller receives that same
pending promise with no state change; and along every event trace at most
one issuance is ever in flight. -/
theorem c1_session_cache_single_flight :
    (∀ (st : PanelState) (now : Int) (c : SessionCache),
        st.sessionCache = some c → c.expiresAt - now > SESSION_CACHE_BUFFER_MS →
        getClientSecretStep st none now = (.secretNow c.secret, st)) ∧
    (∀ (st : PanelState) (now : Int) (p : Nat),
        st.pendingId = some p →
        (∀ c, st.sessionCache = some c →
          ¬ (c.expiresAt - now > SESSION_CACHE_BUFFER_MS)) →
        getClientSecretStep st none now = (.awaitPending p, st)) ∧
    (∀ events : List PanelEvent,
        (runPanel events).inFlight ≤ 1 ∧
        (runPanel events).inFlight =
          (if (runPanel events).pendingId.isSome then 1 else 0)) := by
  refine ⟨fun st now c hc hfresh => ?_, fun st now p hp hstale => ?_, fun events => ?_⟩
  · simp [getClientSecretStep, hc, hfresh]
  · cases hc : st.sessionCache with
    | none => simp [getClientSecretStep, hc, joinOrStartIssuance, hp]
    | some cached =>
      have := hstale cached hc
      simp [getClientSecretStep, hc, this, joinOrStartIssuance, hp]
  · have h := runPanel_inv events
    unfold singleFlightInv at h
    constructor
    · rw [h]; split <;> omega
    · exact h

/-- Witness for C1: a fresh cache is served unchanged; a stale-cache call
joins the pending promise; the singleton-call trace has one in-flight
issuance. -/
theorem c1_session_cache_single_flight_witness :
    getClientSecretStep ⟨some ⟨"sk", 100000⟩, none, 0, 0, 0⟩ none 0 =
      (.secretNow "sk", ⟨some ⟨"sk", 100000⟩, none, 0, 0, 0⟩) ∧
    getClientSecretStep ⟨some ⟨"sk", 100⟩, some 5, 6, 1, 1⟩ none 0 =
      (.awaitPending 5, ⟨some ⟨"sk", 100⟩, some 5, 6, 1, 1⟩) ∧
    (runPanel [.call none 0]).inFlight ≤ 1 :=
  ⟨c1_session_cache_single_flight.1 ⟨some ⟨"sk", 100000⟩, none, 0, 0, 0⟩ 0
      ⟨"sk", 100000⟩ rfl (by decide),
   c1_session_cache_single_flight.2.1 ⟨some ⟨"sk", 100⟩, some 5, 6, 1, 1⟩ 0 5 rfl
      (by intro c hc; cases hc; decide),
   (c1_session_cache_single_flight.2.2 [.call none 0]).1⟩

/-- C7: settling the in-flight issuance clears the pending marker whether
it succeeded or failed, and decrements the in-flight count; settling when
nothing is pending changes nothing (the marker is cleared exactly once); a
failed issuance leaves the cache untouched and its error is delivered to
every caller awaiting that promise; and the next call after a failure
starts a fresh issuance rather than being poisoned. -/
theorem c7_pending_cleared_once :
    (∀ (st : PanelState) (o : IssuanceOutcome) (now : Int),
        st.pendingId.isSome = true →
        (completeIssuance st o now).pendingId = none ∧
        (completeIssuance st o now).inFlight = st.inFlight - 1) ∧
    (∀ (st : PanelState) (o : IssuanceOutcome) (now : Int),
        st.pendingId = none → completeIssuance st o now = st) ∧
    (∀ (st : PanelState) (m : String) (now : Int),
        (completeIssuance st (.err m) now).sessionCache = st.sessionCache) ∧
    (∀ (outcomeOf : Nat → IssuanceOutcome) (p : Nat) (m : String),
        outcomeOf p = .err m →
        deliverResult outcomeOf (.awaitPending p) = .error m) ∧
    (∀ (st : PanelState) (m : String) (now now2 : Int),
        st.pendingId.isSome = true → st.sessionCache = none →
        (getClientSecretStep (completeIssuance st (.err m) now) none now2).1 =
          .awaitPending (completeIssuance st (.err m) now).nextId ∧
        (getClientSecretStep (completeIssuance st (.err m) now) none now2).2.netCalls =
          (completeIssuance st (.err m) now).netCalls + 1) := by
  refine ⟨fun st o now hp => ?_, fun st o now hp => ?_, fun st m now => ?_,
    fun outcomeOf p m hm => ?_, fun st m now now2 hp hc => ?_⟩
  · obtain ⟨p, hp⟩ := Option.isSome_iff_exists.mp hp
    cases o <;> simp [completeIssuance, hp]
  · simp [completeIssuance, hp]
  · cases hp : st.pendingId <;> simp [completeIssuance, hp]
  · simp [deliverResult, hm]
  · obtain ⟨p, hp⟩ := Option.isSome_iff_exists.mp hp
    simp [completeIssuance, hp, getClientSecretStep, hc, joinOrStartIssuance]

/-- Witness for C7 at a state with issuance 5 pending and an empty cache. -/
theorem c7_pending_cleared_once_witness :
    (completeIssuance ⟨none, some 5, 6, 1, 1⟩ (.err "boom") 0).pendingId = none ∧
    completeIssuance ⟨none, none, 6, 1, 0⟩ (.err "boom") 0 = ⟨none, none, 6, 1, 0⟩ ∧
    deliverResult (fun _ => .err "boom") (.awaitPending 5) = .error "boom" ∧
    (getClientSecretStep (completeIssuance ⟨none, some 5, 6, 1, 1⟩ (.err "boom") 0)
        none 7).1 =
      .awaitPending (completeIssuance ⟨none, some 5, 6, 1, 1⟩ (.err "boom") 0).nextId :=
  ⟨(c7_pending_cleared_once.1 ⟨none, some 5, 6, 1, 1⟩ (.err "boom") 0 rfl).1,
   c7_pending_cleared_once.2.1 ⟨none, none, 6, 1, 0⟩ (.err "boom") 0 rfl,
   c7_pending_cleared_once.2.2.2.1 (fun _ => .err "boom") 5 "boom" rfl,
   (c7_pending_cleared_once.2.2.2.2 ⟨none, some 5, 6, 1, 1⟩ "boom" 0 7 rfl rfl).1⟩

/-- C8: resolveSessionExpiry normalizes every expires_after shape into an
absolute epoch-millisecond expiry - relative seconds are added (times
1000) to now, numbers above 10^12 are taken as already absolute epoch
milliseconds, parseable date strings become their parsed value, anything
else becomes now plus the 15-minute default TTL - and the value stored
into the session cache on issuance success is exactly this normalized
absolute timestamp. -/
theorem c8_absolute_expiry :
    (∀ (now n : Int), n ≤ 1000000000000 →
        resolveSessionExpiry now (.num n) = now + n * 1000) ∧
    (∀ (now n : Int), n > 1000000000000 →
        resolveSessionExpiry now (.num n) = n) ∧
    (∀ (now parsed : Int), resolveSessionExpiry now (.str (some parsed)) = parsed) ∧
    (∀ now : Int, resolveSessionExpiry now (.str none) = now + DEFAULT_SESSION_TTL_MS) ∧
    (∀ now : Int, resolveSessionExpiry now .other = now + DEFAULT_SESSION_TTL_MS) ∧
    (∀ (st : PanelState) (s : String) (raw : RawExpiry) (now : Int),
        st.pendingId.isSome = true →
        (completeIssuance st (.ok s raw) now).sessionCache =
          some ⟨s, resolveSessionExpiry now raw⟩) := by
  refine ⟨fun now n hn => ?_, fun now n hn => ?_, fun now parsed => rfl,
    fun now => rfl, fun now => rfl, fun st s raw now hp => ?_⟩
  · simp [resolveSessionExpiry, Int.not_lt.mpr hn]
  · simp [resolveSessionExpiry, hn]
  · obtain ⟨p, hp⟩ := Option.isSome_iff_exists.mp hp
    simp [completeIssuance, hp]

/-- Witness for C8: sixty relative seconds at epoch zero, an absolute
two-trillion timestamp, and the stored cache entry after a successful
issuance. -/
theorem c8_absolute_expiry_witness :
    resolveSessionExpiry 0 (.num 60) = 60000 ∧
    resolveSessionExpiry 0 (.num 2000000000000) = 2000000000000 ∧
    (completeIssuance ⟨none, some 5, 6, 1, 1⟩ (.ok "sk" (.num 60)) 0).sessionCache =
      some ⟨"sk", 60000⟩ :=
  ⟨c8_absolute_expiry.1 0 60 (by omega),
   c8_absolute_expiry.2.1 0 2000000000000 (by omega),
   c8_absolute_expiry.2.2.2.2.2 ⟨none, some 5, 6, 1, 1⟩ "sk" (.num 60) 0 rfl⟩

/-! ## The session identity resolver (route.ts lines 146-210 and the
App.tsx route variant)

getCookieValue, serializeSessionCookie and resolveUserId are embedded with
the randomness (crypto.randomUUID or the Math.random fallback) as an
explicit generated parameter, NODE_ENV === "production" as a Bool, and, in
resolveUserId, the CHATKIT_DISABLE_SESSION_COOKIE flag of the route
variant in src/app/App.tsx as a Bool; route.ts itself corresponds to the
flag being false. -/

/-- JavaScript Array.prototype.join with a separator. -/
def joinSep (sep : String) : List String → String
  | [] => ""
  | [a] => a
  | a :: rest => a ++ sep ++ joinSep sep rest

/-- The characters encodeURIComponent leaves unescaped: ASCII letters and
digits and - _ . ! ~ * apostrophe ( ). -/
def uriUnreserved (c : Char) : Bool :=
  c.isAlphanum || c == '-' || c == '_' || c == '.' || c == '!' || c == '~' ||
  c == '*' || c == Char.ofNat 39 || c == '(' || c == ')'

/-- Uppercase hexadecimal digit. -/
def hexDigitUpper (n : Nat) : Char :=
  if n < 10 then Char.ofNat (48 + n) else Char.ofNat (55 + n)

/-- Percent-encoding of one byte, as %XX. -/
def percentEncodeByte (b : UInt8) : List Char :=
  [Char.ofNat 37, hexDigitUpper (b.toNat / 16), hexDigitUpper (b.toNat % 16)]

/-- The JavaScript builtin encodeURIComponent: unreserved characters pass
through, every other character is percent-encoded byte by byte in UTF-8. -/
def encodeURIComponent (s : String) : String :=
  String.mk (s.data.foldr
    (fun c acc =>
      (if uriUnreserved c then [c]
       else (String.singleton c).toUTF8.toList.foldr
         (fun b acc2 => percentEncodeByte b ++ acc2) []) ++ acc)
    [])

/-- SESSION_COOKIE_NAME from route.ts line 17. -/
def SESSION_COOKIE_NAME : String := "chatkit_session_id"

/-- SESSION_COOKIE_MAX_AGE from route.ts line 18: 30 days in seconds. -/
def SESSION_COOKIE_MAX_AGE : Nat := 60 * 60 * 24 * 30

/-- The JavaScript split of a character list at a one-character separator:
separators delimit (possibly empty) fields, and the empty input gives one
empty field. -/
def splitCharList (sep : Char) : List Char → List (List Char)
  | [] => [[]]
  | c :: cs =>
    let rest := splitCharList sep cs
    if c = sep then [] :: rest
    else
      match rest with
      | [] => [[c]]
      | r :: rs => (c :: r) :: rs

/-- JavaScript s.split(sep) for a one-character separator, which is how
getCookieValue uses it (semicolon and equals sign). -/
def jsSplit (s : String) (sep : Char) : List String :=
  (splitCharList sep s.data).map String.mk

/-- JavaScript s.trim(): leading and trailing whitespace removed. -/
def jsTrim (s : String) : String :=
  String.mk (((s.data.dropWhile Char.isWhitespace).reverse.dropWhile
    Char.isWhitespace).reverse)

/-- One iteration of the getCookieValue loop (route.ts lines 184-193):
split the entry on =, skip entries with an empty raw name or no = at all,
and when the trimmed name matches return the =-rejoined trimmed value. -/
def cookieEntryValue (cookie name : String) : Option String :=
  match jsSplit cookie (Char.ofNat 61) with
  | [] => none
  | rawName :: rest =>
    if rawName = "" ∨ rest = [] then none
    else if jsTrim rawName = name then some (jsTrim (joinSep "=" rest))
    else none

/-- The for-loop of getCookieValue: first matching entry wins. -/
def findCookieValue : List String → String → Option String
  | [], _ => none
  | c :: cs, name =>
    match cookieEntryValue c name with
    | some v => some v
    | none => findCookieValue cs name

/-- Embedding of getCookieValue from route.ts lines 176-195. A null or
empty header is falsy and yields null. -/
def getCookieValue (cookieHeader : Option String) (name : String) : Option String :=
  match cookieHeader with
  | none => none
  | some h => if h = "" then none else findCookieValue (jsSplit h (Char.ofNat 59)) name

/-- Embedding of serializeSessionCookie from route.ts lines 197-210:
name=encodedValue, Path=/, Max-Age, HttpOnly, SameSite=Lax, and Secure
pushed only in production, joined with semicolon-space. -/
def serializeSessionCookie (value : String) (isProduction : Bool) : String :=
  let attributes := [
    SESSION_COOKIE_NAME ++ "=" ++ encodeURIComponent value,
    "Path=/",
    "Max-Age=" ++ toString SESSION_COOKIE_MAX_AGE,
    "HttpOnly",
    "SameSite=Lax"]
  let attributes := if isProduction then attributes ++ ["Secure"] else attributes
  joinSep "; " attributes

/-- Embedding of resolveUserId, from the create-session route variant in
src/app/App.tsx (lines 610-635 of that file): with the cookie-disable
flag set, always a fresh identity and no cookie; otherwise the behaviour
of route.ts lines 153-174: a truthy existing cookie value is returned with
no cookie to set, else the generated identity is returned together with
the serialized cookie. -/
def resolveUserId (disableSessionCookie : Bool) (cookieHeader : Option String)
    (generated : String) (isProduction : Bool) : String × Option String :=
  if disableSessionCookie then (generated, none)
  else
    match getCookieValue cookieHeader SESSION_COOKIE_NAME with
    | some existing =>
      if existing = "" then
        (generated, some (serializeSessionCookie generated isProduction))
      else (existing, none)
    | none => (generated, some (serializeSessionCookie generated isProduction))

/-! ## String-inclusion lemmas -/

/-- A leading occurrence survives appending on the right. -/
theorem charListLeads_append (pat x t : List Char)
    (h : charListLeads pat x = true) : charListLeads pat (x ++ t) = true := by
  induction pat generalizing x with
  | nil => rfl
  | cons p ps ih =>
    cases x with
    | nil => simp [charListLeads] at h
    | cons c cs =>
      simp [charListLeads] at h ⊢
      exact ⟨h.1, ih cs h.2⟩

/-- An occurrence in the left part survives appending on the right. -/
theorem charListHas_append_left (pat s t : List Char)
    (h : charListHas pat s = true) : charListHas pat (s ++ t) = true := by
  induction s with
  | nil =>
    cases pat with
    | nil => cases t <;> simp [charListHas, charListLeads]
    | cons p ps => simp [charListHas, charListLeads] at h
  | cons c cs ih =>
    simp only [charListHas, Bool.or_eq_true] at h
    rcases h with h | h
    · simp only [List.cons_append, charListHas, Bool.or_eq_true]
      exact Or.inl (charListLeads_append pat (c :: cs) t h)
    · simp only [List.cons_append, charListHas, Bool.or_eq_true]
      exact Or.inr (ih h)

/-- An occurrence in the right part survives prepending on the left. -/
theorem charListHas_append_right (pat s t : List Char)
    (h : charListHas pat t = true) : charListHas pat (s ++ t) = true := by
  induction s with
  | nil => simpa using h
  | cons c cs ih =>
    simp only [List.cons_append, charListHas, Bool.or_eq_true]
    exact Or.inr ih

/-- The serialized cookie decomposes into the encoded name-value pair and
the closed attribute tail, with Secure appended exactly in production. -/
theorem serializeSessionCookie_decomp (v : String) :
    (serializeSessionCookie v false =
      (SESSION_COOKIE_NAME ++ "=" ++ encodeURIComponent v) ++
        "; Path=/; Max-Age=2592000; HttpOnly; SameSite=Lax") ∧
    serializeSessionCookie v true = serializeSessionCookie v false ++ "; Secure" := by
  constructor
  · simp only [serializeSessionCookie, joinSep, if_neg Bool.false_ne_true,
      SESSION_COOKIE_MAX_AGE]
    rw [show ("; Path=/; Max-Age=2592000; HttpOnly; SameSite=Lax" : String) =
      "; " ++ ("Path=/" ++ ("; " ++ ("Max-Age=" ++ toString (60 * 60 * 24 * 30) ++
        ("; " ++ ("HttpOnly" ++ ("; " ++ "SameSite=Lax")))))) from rfl]
    simp [String.append_assoc]
    rfl
  · simp only [serializeSessionCookie, joinSep, SESSION_COOKIE_MAX_AGE]
    rw [show ("; Secure" : String) = "; " ++ "Secure" from rfl]
    simp [String.append_assoc]

/-- String-level right-append inclusion. -/
theorem strIncludes_of_right (s t pat : String) (h : strIncludes t pat = true) :
    strIncludes (s ++ t) pat = true := by
  unfold strIncludes at h ⊢
  rw [String.data_append]
  exact charListHas_append_right pat.data s.data t.data h

/-- String-level left-append inclusion. -/
theorem strIncludes_of_left (s t pat : String) (h : strIncludes s pat = true) :
    strIncludes (s ++ t) pat = true := by
  unfold strIncludes at h ⊢
  rw [String.data_append]
  exact charListHas_append_left pat.data s.data t.data h

/-! ## Claims C6 and C9 -/

/-- C6: a request whose cookie header carries a non-empty
chatkit_session_id cookie resolves to that value with no new cookie to
set, independently of the generated fallback identity (so repeated calls
with the same cookie agree); the example header yields identity abc123; a
request without such a cookie resolves to the freshly generated identity
together with a serialized Set-Cookie carrying Path=/, Max-Age=2592000,
HttpOnly and SameSite=Lax, with Secure appended exactly in production
mode. -/
theorem c6_cookie_identity :
    getCookieValue (some "chatkit_session_id=abc123; other=x") SESSION_COOKIE_NAME =
      some "abc123" ∧
    (∀ (gen : String) (prod : Bool),
        resolveUserId false (some "chatkit_session_id=abc123; other=x") gen prod =
          ("abc123", none)) ∧
    (∀ (header : Option String) (gen : String) (prod : Bool) (v : String),
        getCookieValue header SESSION_COOKIE_NAME = some v → v ≠ "" →
        resolveUserId false header gen prod = (v, none)) ∧
    (∀ (header : Option String) (gen : String) (prod : Bool),
        getCookieValue header SESSION_COOKIE_NAME = none →
        resolveUserId false header gen prod =
          (gen, some (serializeSessionCookie gen prod))) ∧
    (∀ (gen : String) (prod : Bool),
        strIncludes (serializeSessionCookie gen prod) "Path=/" = true ∧
        strIncludes (serializeSessionCookie gen prod) "Max-Age=2592000" = true ∧
        strIncludes (serializeSessionCookie gen prod) "HttpOnly" = true ∧
        strIncludes (serializeSessionCookie gen prod) "SameSite=Lax" = true) ∧
    (∀ gen : String,
        serializeSessionCookie gen true = serializeSessionCookie gen false ++ "; Secure") := by
  have hdecomp := serializeSessionCookie_decomp
  have hinc : ∀ (gen : String) (prod : Bool) (pat : String),
      strIncludes "; Path=/; Max-Age=2592000; HttpOnly; SameSite=Lax" pat = true →
      strIncludes (serializeSessionCookie gen prod) pat = true := by
    intro gen prod pat hpat
    cases prod with
    | false =>
      rw [(hdecomp gen).1]
      exact strIncludes_of_right _ _ _ hpat
    | true =>
      rw [(hdecomp gen).2, (hdecomp gen).1]
      exact strIncludes_of_left _ _ _ (strIncludes_of_right _ _ _ hpat)
  have hcv : getCookieValue (some "chatkit_session_id=abc123; other=x")
      SESSION_COOKIE_NAME = some "abc123" := by decide
  refine ⟨hcv, fun gen prod => ?_, fun header gen prod v hv hne => ?_,
    fun header gen prod hn => ?_, fun gen prod => ?_, fun gen => (hdecomp gen).2⟩
  · simp [resolveUserId, hcv]
  · simp [resolveUserId, hv, hne]
  · simp [resolveUserId, hn]
  · exact ⟨hinc gen prod _ (by decide), hinc gen prod _ (by decide),
      hinc gen prod _ (by decide), hinc gen prod _ (by decide)⟩

/-- Witness for C6: the example header resolves to abc123 without a
cookie, and the empty header resolves to the generated identity with the
serialized cookie. -/
theorem c6_cookie_identity_witness :
    resolveUserId false (some "chatkit_session_id=abc123; other=x") "gen-id" false =
      ("abc123", none) ∧
    resolveUserId false none "gen-id" false =
      ("gen-id", some (serializeSessionCookie "gen-id" false)) :=
  ⟨c6_cookie_identity.2.2.1 (some "chatkit_session_id=abc123; other=x") "gen-id"
      false "abc123" (by decide) (by decide),
   c6_cookie_identity.2.2.2.1 none "gen-id" false rfl⟩

/-- C9: with the environment cookie-disable flag set, the identity
resolver returns a fresh identity and never emits a Set-Cookie value,
whatever cookie header is present. -/
theorem c9_cookie_disable_flag (header : Option String) (gen : String) (prod : Bool) :
    resolveUserId true header gen prod = (gen, none) := rfl
